import Mathlib

/-!
Verification of the physiological-data conversion script
`process_physio_ses_1.py` (BIDS_tools).

The Python source is embedded shallowly:

* Python values that flow through the metadata path are modelled by `PyVal`
  (floats as rationals), Python exceptions by `PyErr`.
* `rename_channels`, `extract_metadata_from_json`, `extract_trigger_points`
  and `find_runs` are translated function by function from the source.
* The run-scanning loop of `find_runs` (source lines 232-250) is embedded
  separately as `findRunsCore`, taking the trigger onsets as an argument:
  in the source the loop reads the unbound name `mri_trigger_data`, a fact
  modelled faithfully by `find_runs` itself, which errors before the loop.
* `numpy` slicing (`data[start:end, :]`) is modelled by `pySlice`, which
  clamps at the recording length exactly as `numpy` does.
-/

/-- Model of the Python values appearing in the metadata path:
`None`, ints, floats (as rationals), strings, dicts (insertion-ordered
association lists) and tuples. -/
inductive PyVal where
  | none
  | int (n : Int)
  | rat (q : ℚ)
  | str (s : String)
  | dict (entries : List (String × PyVal))
  | tuple (items : List PyVal)
deriving Inhabited

/-- Python `v is None`. -/
def PyVal.isNone : PyVal → Bool
  | .none => true
  | _ => false

/-- Model of the Python exceptions the embedded functions can raise. -/
inductive PyErr where
  | fileNotFoundError (path : String)
  | jsonDecodeError (path : String)
  | valueErrorMissingFields (path : String) (missing : List String)
  | keyError (key : String)
  | nameError (name : String)
  | typeError (msg : String)
deriving Repr, DecidableEq

/-- Python `dict.get(k)`: the value stored under `k`, or `None`. -/
def pyGet (m : List (String × PyVal)) (k : String) : PyVal :=
  match m.find? (fun p => p.1 == k) with
  | some p => p.2
  | Option.none => PyVal.none

/-- Python truthiness of a `PyVal` (`bool(v)`), as used by
`all(run_metadata.values())`. -/
def PyVal.truthy : PyVal → Bool
  | .none => false
  | .int n => n != 0
  | .rat q => q != 0
  | .str s => s != ""
  | .dict l => !l.isEmpty
  | .tuple l => !l.isEmpty

/-- `leadsWith pat l` holds when `pat` occurs at the start of `l`. -/
def leadsWith : List Char → List Char → Bool
  | [], _ => true
  | _ :: _, [] => false
  | p :: ps, c :: cs => p == c && leadsWith ps cs

/-- `hasSubList pat l` holds when `pat` occurs contiguously inside `l`. -/
def hasSubList : List Char → List Char → Bool
  | pat, [] => leadsWith pat []
  | pat, l@(_ :: cs) => leadsWith pat l || hasSubList pat cs

/-- Python `pat in s` on strings: substring containment. -/
def strContains (s pat : String) : Bool :=
  hasSubList pat.toList s.toList

/-- The fixed label table `original_label_mapping` of `rename_channels`
(source lines 100-106), in source order. -/
def original_label_mapping : List (String × String) :=
  [("ECG", "cardiac"),
   ("RSP", "respiratory"),
   ("EDA", "eda"),
   ("Trigger", "trigger"),
   ("PPG", "ppg")]

/-- The loop of `rename_channels` (source lines 113-125). Returns the
BIDS-labels dictionary (insertion order), the BIDS-labels list, and the
labels that fell through to the `else` branch (logged as warnings). -/
def renameLoop : List String → List (String × String) × List String × List String
  | [] => ([], [], [])
  | label :: rest =>
    if strContains label "Digital input" then
      renameLoop rest
    else
      match original_label_mapping.find? (fun p => strContains label p.1) with
      | some p =>
          let r := renameLoop rest
          ((label, p.2) :: r.1, p.2 :: r.2.1, r.2.2)
      | Option.none =>
          let r := renameLoop rest
          (r.1, r.2.1, label :: r.2.2)

/-- `rename_channels` (source lines 90-131): maps original channel labels
to BIDS labels. Third component: the unmatched labels that are only
warned about. -/
def rename_channels (labels : List String) :
    List (String × String) × List String × List String :=
  renameLoop labels

/-- The three ways the JSON metadata source can present itself to
`extract_metadata_from_json`: absent file, malformed JSON, or a parsed
JSON object. -/
inductive JsonSource where
  | missing
  | malformed
  | parsed (m : List (String × PyVal))

/-- `extract_metadata_from_json` (source lines 134-189). State-passing
model: the second component of the result is the `processed_jsons` set
after the call (the Python code mutates it in place). On success the
function returns the 4-tuple
`(run_metadata, NumVolumes, RepetitionTime, TaskName)`; for an
already-processed path it returns `None` without touching the source. -/
def extract_metadata_from_json (json_file_path : String) (source : JsonSource)
    (processed_jsons : List String) : Except PyErr PyVal × List String :=
  if json_file_path ∈ processed_jsons then
    (Except.ok PyVal.none, processed_jsons)
  else
    match source with
    | .missing => (Except.error (.fileNotFoundError json_file_path), processed_jsons)
    | .malformed => (Except.error (.jsonDecodeError json_file_path), processed_jsons)
    | .parsed metadata =>
        let run_metadata : List (String × PyVal) :=
          [("TaskName", pyGet metadata "TaskName"),
           ("RepetitionTime", pyGet metadata "RepetitionTime"),
           ("NumVolumes", pyGet metadata "NumVolumes")]
        if run_metadata.all (fun p => p.2.truthy) then
          (Except.ok (PyVal.tuple
              [PyVal.dict run_metadata,
               pyGet metadata "NumVolumes",
               pyGet metadata "RepetitionTime",
               pyGet metadata "TaskName"]),
           processed_jsons ++ [json_file_path])
        else
          let missing_fields :=
            (run_metadata.filter (fun p => p.2.isNone)).map (·.1)
          (Except.error (.valueErrorMissingFields json_file_path missing_fields),
           processed_jsons)

/-- The orchestrator's skip guard (source line 332):
`run_metadata is None or not isinstance(run_metadata, dict)`. -/
def mainGuard (v : PyVal) : Bool :=
  match v with
  | .none => true
  | .dict _ => false
  | _ => true

/-- `extract_trigger_points` (source lines 192-209): binarize against the
threshold, first-difference with a prepended zero (`np.diff(·, prepend=0)`),
and return the indices where the difference is `+1`. -/
def extract_trigger_points (mri_trigger_data : List ℚ) (threshold : ℚ) : List Nat :=
  let triggers : List Int := mri_trigger_data.map (fun x => if x > threshold then 1 else 0)
  let diff_triggers : List Int := List.zipWith (fun a b => a - b) triggers (0 :: triggers)
  (List.range diff_triggers.length).filter (fun i => diff_triggers.getD i 0 == 1)

/-- Python `int(q)` on a float: truncation toward zero (source line 227
computes `samples_per_volume = int(sampling_rate * repetition_time)`). -/
def pyTrunc (q : ℚ) : Int :=
  if 0 ≤ q then ⌊q⌋ else ⌈q⌉

/-- `samples_per_volume` as computed at source line 227. -/
def samples_per_volume (sampling_rate repetition_time : ℚ) : Int :=
  pyTrunc (sampling_rate * repetition_time)

/-- A run as built by `find_runs`: the dictionary
`{'data': segment, 'start_index': start_idx}` (source lines 243, 250). -/
structure Run where
  data : List (List ℚ)
  start_index : Nat
deriving Repr

/-- `numpy` row slicing `data[start:stop, :]`: rows `start ≤ i < stop`,
clamped at the recording length (numpy never raises on out-of-range
slice bounds). -/
def pySlice (data : List (List ℚ)) (start stop : Nat) : List (List ℚ) :=
  (data.drop start).take (stop - start)

/-- The run dictionary appended at source lines 239-243 / 247-250:
`start_idx = current_run[0]`,
`end_idx = start_idx + num_volumes_per_run * samples_per_volume`,
`segment = data[start_idx:end_idx, :]`. `current_run` is nonempty at
every call site reachable with a positive volume count, so `headD 0`
coincides with Python's `current_run[0]` there. -/
def mkRun (data : List (List ℚ)) (num spv : Nat) (current : List Nat) : Run :=
  { data := pySlice data (current.headD 0) (current.headD 0 + num * spv),
    start_index := current.headD 0 }

/-- The post-loop check of `find_runs` (source lines 246-250): emit a run
from the leftover accumulator only when it holds exactly `num` onsets. -/
def trailRun (data : List (List ℚ)) (num spv : Nat) (current : List Nat) : List Run :=
  if current.length = num then [mkRun data num spv current] else []

/-- The scanning loop of `find_runs` (source lines 232-250). The Python
loop runs `i` over `range(len(trigger_starts) - 1)`; each step appends
`trigger_starts[i]` to `current_run` while it is short of `num`, then
accepts the run when it has exactly `num` onsets, or resets the
accumulator when the gap `trigger_starts[i+1] - trigger_starts[i]`
exceeds `spv`. The final onset is never visited by the loop body, and
the trailing leftover is handled by `trailRun`. -/
def scanRuns (data : List (List ℚ)) (num spv : Nat) :
    List Nat → List Nat → List Run
  | current, t :: t' :: rest =>
      let cur := if current.length < num then current ++ [t] else current
      if cur.length = num ∨ ((t' : Int) - (t : Int) > (spv : Int)) then
        (if cur.length = num then [mkRun data num spv cur] else [])
          ++ scanRuns data num spv [] (t' :: rest)
      else
        scanRuns data num spv cur (t' :: rest)
  | current, _ => trailRun data num spv current

/-- The run-identification core of `find_runs` (source lines 232-250),
with the pulse onsets `trigger_starts` supplied as an argument (in the
source they would come from `extract_trigger_points(mri_trigger_data)`,
where `mri_trigger_data` is unbound — see `find_runs` below). -/
def findRunsCore (data : List (List ℚ)) (trigger_starts : List Nat)
    (num spv : Nat) : List Run :=
  scanRuns data num spv [] trigger_starts

/-- Numeric coercion used when a `PyVal` meets arithmetic: numbers
convert, everything else is a `TypeError`. -/
def PyVal.toRat? : PyVal → Option ℚ
  | .int n => some (n : ℚ)
  | .rat q => some q
  | _ => Option.none

/-- Python `d[k]` on a dict: the value, or a `KeyError`. -/
def pyGetItem (m : List (String × PyVal)) (k : String) : Except PyErr PyVal :=
  match m.find? (fun p => p.1 == k) with
  | some p => Except.ok p.2
  | Option.none => Except.error (PyErr.keyError k)

/-- `find_runs` as it actually executes (source lines 212-256): after
reading `RepetitionTime` and `NumVolumes` from `run_metadata` and
computing `samples_per_volume`, the body evaluates
`extract_trigger_points(mri_trigger_data)` (source line 230), but
`mri_trigger_data` is neither a parameter nor defined in any enclosing
scope, so a `NameError` is raised; the `except` clause logs and
re-raises. The function can therefore never return a list of runs. -/
def find_runs (data : List (List ℚ)) (run_metadata : List (String × PyVal))
    (sampling_rate : ℚ) : Except PyErr (List Run) :=
  let _task_name := pyGet run_metadata "TaskName"
  match pyGetItem run_metadata "RepetitionTime" with
  | Except.error e => Except.error e
  | Except.ok repetition_time =>
    match pyGetItem run_metadata "NumVolumes" with
    | Except.error e => Except.error e
    | Except.ok _num_volumes_per_run =>
      match repetition_time.toRat? with
      | Option.none => Except.error (PyErr.typeError "unsupported operand type(s) for *")
      | some rt =>
        let _samples_per_volume := pyTrunc (sampling_rate * rt)
        Except.error (PyErr.nameError "mri_trigger_data")

/-- CPython binding of a call with `numPositional` positional arguments
and keyword arguments `kwNames` against a function whose parameters are
`params`, of which the last `numDefaults` carry defaults. Returns a
`TypeError` when a parameter receives both a positional and a keyword
value, when a keyword is unknown, or when a required parameter is
unbound. -/
def bindArgs (params : List String) (numPositional : Nat) (kwNames : List String)
    (numDefaults : Nat) : Except PyErr Unit :=
  if params.length < numPositional then
    Except.error (PyErr.typeError "too many positional arguments")
  else
    match kwNames.find? (fun kw => (params.take numPositional).contains kw) with
    | some kw =>
        Except.error (PyErr.typeError ("got multiple values for argument " ++ kw))
    | Option.none =>
      match kwNames.find? (fun kw => !(params.contains kw)) with
      | some kw =>
          Except.error (PyErr.typeError ("got an unexpected keyword argument " ++ kw))
      | Option.none =>
        match ((params.take (params.length - numDefaults)).drop numPositional).find?
            (fun p => !(kwNames.contains p)) with
        | some p =>
            Except.error (PyErr.typeError ("missing a required argument " ++ p))
        | Option.none => Except.ok ()

/-- A concrete 450-sample single-channel recording. -/
def exData450 : List (List ℚ) := List.replicate 450 [0]

/-- A concrete 250-sample single-channel recording, shorter than the
400 samples a 4-volume run at 100 samples/volume requires. -/
def exData250 : List (List ℚ) := List.replicate 250 [0]

/-- C1: with pulse onsets `[0,100,200,300]`, `samples_per_volume = 100`
and `num_volumes = 4`, the scanning loop of `find_runs` accepts the run
only when a trailing onset follows: the loop runs over
`range(len(trigger_starts) - 1)` and never appends the final onset, and
the post-loop leftover check requires exactly `num_volumes` onsets, which
the leftover can never reach. With no trailing onset the code returns no
run at all, contradicting the claimed `end_index = 400` acceptance; with
a trailing onset it returns the claimed run `[0, 400)`. -/
theorem find_runs_core_drops_last_onset :
    findRunsCore exData450 [0, 100, 200, 300] 4 100 = [] ∧
    findRunsCore exData450 [0, 100, 200, 300, 301] 4 100 =
      [{ data := pySlice exData450 0 400, start_index := 0 }] :=
  ⟨rfl, rfl⟩

/-- C2 (counterexample): a channel whose first sample `8` already exceeds
the threshold `5` has index `0` reported as a pulse onset: the zero
prepended by `np.diff(·, prepend=0)` makes the first above-threshold
sample a `0 → 1` transition, so the claim that index `0` is *not*
counted is false. -/
theorem extract_trigger_points_start_high_cex :
    (8 : ℚ) > 5 ∧ extract_trigger_points [8, 0] 5 = [0] :=
  ⟨by norm_num, by decide⟩

/-- C2 (amended): for every trigger channel whose first sample exceeds
the threshold, `extract_trigger_points` DOES report index `0` as an
onset — the implicit leading zero turns the first sample into a
below-to-above transition. -/
theorem extract_trigger_points_onset_at_zero (x : ℚ) (rest : List ℚ) (t : ℚ)
    (h : x > t) : 0 ∈ extract_trigger_points (x :: rest) t := by
  unfold extract_trigger_points
  rw [List.mem_filter]
  refine ⟨List.mem_range.mpr ?_, ?_⟩
  · simp
  · simp [h]

/-- C2 (witness for the amended theorem). -/
theorem extract_trigger_points_onset_at_zero_witness :
    0 ∈ extract_trigger_points [8, 0] 5 :=
  extract_trigger_points_onset_at_zero 8 [0] 5 (by norm_num)

/-- C6 (counterexample): with positive `sampling_rate = 10` and
`repetition_time = 0.97`, the source computes
`samples_per_volume = int(10 * 0.97) = 9`, whereas rounding to the
nearest integer gives `10` — the claim that the code rounds is false. -/
theorem samples_per_volume_not_round_cex :
    (0 : ℚ) < 10 ∧ (0 : ℚ) < 97 / 100 ∧
    samples_per_volume 10 (97 / 100) = 9 ∧
    round ((10 : ℚ) * (97 / 100)) = 10 := by
  refine ⟨by norm_num, by norm_num, ?_, ?_⟩
  · unfold samples_per_volume pyTrunc
    norm_num
  · norm_num [round_eq]

/-- C6 (amended): for every positive `sampling_rate` and
`repetition_time`, the source derives `samples_per_volume` as
`int(sampling_rate * repetition_time)`, i.e. truncation toward zero,
which on positive products is the floor of the product (not rounding to
the nearest integer). -/
theorem samples_per_volume_truncates (r t : ℚ) (h1 : 0 < r) (h2 : 0 < t) :
    samples_per_volume r t = ⌊r * t⌋ := by
  unfold samples_per_volume pyTrunc
  rw [if_pos (le_of_lt (mul_pos h1 h2))]

/-- C6 (witness for the amended theorem). -/
theorem samples_per_volume_truncates_witness :
    samples_per_volume 10 (97 / 100) = ⌊(10 : ℚ) * (97 / 100)⌋ :=
  samples_per_volume_truncates 10 (97 / 100) (by norm_num) (by norm_num)

/-- C8: applied to `['ECG1','RSP1','Trigger','Digital input 1']`,
`rename_channels` yields exactly the dictionary
`{'ECG1': 'cardiac', 'RSP1': 'respiratory', 'Trigger': 'trigger'}`; the
label containing `'Digital input'` is skipped before matching and absent
from the dictionary. A label matching no table entry (e.g. `'Foo'`) is
omitted from the dictionary and only collected as a warning — no
error. -/
theorem rename_channels_example :
    rename_channels ["ECG1", "RSP1", "Trigger", "Digital input 1"] =
      ([("ECG1", "cardiac"), ("RSP1", "respiratory"), ("Trigger", "trigger")],
       ["cardiac", "respiratory", "trigger"], []) ∧
    rename_channels ["ECG1", "RSP1", "Trigger", "Digital input 1", "Foo"] =
      ([("ECG1", "cardiac"), ("RSP1", "respiratory"), ("Trigger", "trigger")],
       ["cardiac", "respiratory", "trigger"], ["Foo"]) :=
  ⟨rfl, rfl⟩

/-- C3: `find_runs` can never return a list of runs — its body reads the
unbound name `mri_trigger_data`, so every execution that gets past the
metadata lookups raises `NameError`, and the lookups themselves can only
raise other exceptions, never succeed through to the loop. Moreover, the
orchestrator's call (source line 340) passes three positional arguments
plus the keyword `sampling_rate=5000` to a function whose parameters are
`(data, run_metadata, sampling_rate=5000)`, so the third positional
argument already binds `sampling_rate` and the call itself raises
`TypeError` before the body runs. -/
theorem find_runs_always_raises :
    (∀ (data : List (List ℚ)) (md : List (String × PyVal)) (sr : ℚ),
        ∃ e : PyErr, find_runs data md sr = Except.error e) ∧
    bindArgs ["data", "run_metadata", "sampling_rate"] 3 ["sampling_rate"] 1 =
      Except.error (PyErr.typeError "got multiple values for argument sampling_rate") := by
  constructor
  · intro data md sr
    unfold find_runs
    cases h1 : pyGetItem md "RepetitionTime" with
    | error e => exact ⟨e, by simp⟩
    | ok rt =>
      cases h2 : pyGetItem md "NumVolumes" with
      | error e => exact ⟨e, by simp⟩
      | ok nv =>
        cases h3 : rt.toRat? with
        | none => exact ⟨PyErr.typeError "unsupported operand type(s) for *", by simp [h3]⟩
        | some q => exact ⟨PyErr.nameError "mri_trigger_data", by simp [h3]⟩
  · rfl

/-- C3 (witness): the first conjunct applied at a concrete input. -/
theorem find_runs_always_raises_witness :
    ∃ e : PyErr,
      find_runs exData450 [("TaskName", PyVal.str "rest"),
        ("RepetitionTime", PyVal.rat 2), ("NumVolumes", PyVal.int 160)] 5000 =
        Except.error e :=
  find_runs_always_raises.1 exData450
    [("TaskName", PyVal.str "rest"), ("RepetitionTime", PyVal.rat 2),
     ("NumVolumes", PyVal.int 160)] 5000

/-- C4: for a metadata file that exists, parses, and passes validation on
its first resolution, `extract_metadata_from_json` returns the 4-tuple
`(run_metadata, NumVolumes, RepetitionTime, TaskName)` — never a plain
dict. Consequently the orchestrator's guard
`run_metadata is None or not isinstance(run_metadata, dict)` is true for
every value the function can return, so every run is skipped. -/
theorem extract_metadata_returns_tuple_guard_skips
    (path : String) (m : List (String × PyVal)) (processed : List String)
    (hnp : path ∉ processed)
    (h1 : (pyGet m "TaskName").truthy = true)
    (h2 : (pyGet m "RepetitionTime").truthy = true)
    (h3 : (pyGet m "NumVolumes").truthy = true) :
    extract_metadata_from_json path (JsonSource.parsed m) processed =
      (Except.ok (PyVal.tuple
          [PyVal.dict
             [("TaskName", pyGet m "TaskName"),
              ("RepetitionTime", pyGet m "RepetitionTime"),
              ("NumVolumes", pyGet m "NumVolumes")],
           pyGet m "NumVolumes", pyGet m "RepetitionTime", pyGet m "TaskName"]),
       processed ++ [path]) ∧
    (∀ (p : String) (s : JsonSource) (pr pr' : List String) (v : PyVal),
        extract_metadata_from_json p s pr = (Except.ok v, pr') →
        mainGuard v = true) := by
  constructor
  · unfold extract_metadata_from_json
    rw [if_neg hnp]
    simp [h1, h2, h3]
  · intro p s pr pr' v h
    unfold extract_metadata_from_json at h
    by_cases hp : p ∈ pr
    · rw [if_pos hp] at h
      obtain ⟨hv, -⟩ := Prod.mk.injEq .. ▸ h
      cases Except.ok.injEq .. ▸ hv
      rfl
    · rw [if_neg hp] at h
      cases s with
      | missing => simp at h
      | malformed => simp at h
      | parsed meta =>
        by_cases hall :
            ([("TaskName", pyGet meta "TaskName"),
              ("RepetitionTime", pyGet meta "RepetitionTime"),
              ("NumVolumes", pyGet meta "NumVolumes")].all (fun p => p.2.truthy)) = true
        · simp only [hall, if_true] at h
          obtain ⟨hv, -⟩ := Prod.mk.injEq .. ▸ h
          cases Except.ok.injEq .. ▸ hv
          rfl
        · simp only [Bool.not_eq_true] at hall
          simp [hall] at h

/-- C4 (witness). -/
theorem extract_metadata_returns_tuple_guard_skips_witness :
    extract_metadata_from_json "f.json"
        (JsonSource.parsed [("TaskName", PyVal.str "rest"),
          ("RepetitionTime", PyVal.rat 2), ("NumVolumes", PyVal.int 160)]) [] =
      (Except.ok (PyVal.tuple
          [PyVal.dict
             [("TaskName", PyVal.str "rest"),
              ("RepetitionTime", PyVal.rat 2),
              ("NumVolumes", PyVal.int 160)],
           PyVal.int 160, PyVal.rat 2, PyVal.str "rest"]),
       ["f.json"]) :=
  (extract_metadata_returns_tuple_guard_skips "f.json"
    [("TaskName", PyVal.str "rest"), ("RepetitionTime", PyVal.rat 2),
     ("NumVolumes", PyVal.int 160)] []
    (by simp) rfl rfl rfl).1

/-- C9: resolving run metadata is idempotent over the processed-paths
set. If a first call on `path` actually resolves (returns a non-`None`
value), then a second call on the same path returns the `None` sentinel
with the set unchanged, and does so for EVERY possible state of the
metadata source — the file is not re-opened, re-parsed or re-validated. -/
theorem extract_metadata_idempotent (path : String) (src : JsonSource)
    (processed procAfter : List String) (v : PyVal)
    (h : extract_metadata_from_json path src processed = (Except.ok v, procAfter))
    (hv : v.isNone = false) :
    ∀ src2 : JsonSource,
      extract_metadata_from_json path src2 procAfter =
        (Except.ok PyVal.none, procAfter) := by
  intro src2
  unfold extract_metadata_from_json at h
  by_cases hp : path ∈ processed
  · rw [if_pos hp] at h
    obtain ⟨h1, -⟩ := Prod.mk.injEq .. ▸ h
    cases Except.ok.injEq .. ▸ h1
    simp [PyVal.isNone] at hv
  · rw [if_neg hp] at h
    cases src with
    | missing => simp at h
    | malformed => simp at h
    | parsed meta =>
      by_cases hall :
          ([("TaskName", pyGet meta "TaskName"),
            ("RepetitionTime", pyGet meta "RepetitionTime"),
            ("NumVolumes", pyGet meta "NumVolumes")].all (fun p => p.2.truthy)) = true
      · simp only [hall, if_true] at h
        obtain ⟨-, h2⟩ := Prod.mk.injEq .. ▸ h
        unfold extract_metadata_from_json
        rw [if_pos (by rw [← h2]; exact List.mem_append_right _ (List.mem_singleton_self path))]
      · simp only [Bool.not_eq_true] at hall
        simp [hall] at h

/-- C9 (witness): a concrete first resolution followed by a second call
on the same path, with the source now absent — the sentinel is returned
and the set is unchanged. -/
theorem extract_metadata_idempotent_witness :
    extract_metadata_from_json "f.json" JsonSource.missing ["f.json"] =
      (Except.ok PyVal.none, ["f.json"]) :=
  extract_metadata_idempotent "f.json"
    (JsonSource.parsed [("TaskName", PyVal.str "rest"),
      ("RepetitionTime", PyVal.rat 2), ("NumVolumes", PyVal.int 160)])
    [] ["f.json"]
    (PyVal.tuple
      [PyVal.dict
         [("TaskName", PyVal.str "rest"),
          ("RepetitionTime", PyVal.rat 2),
          ("NumVolumes", PyVal.int 160)],
       PyVal.int 160, PyVal.rat 2, PyVal.str "rest"])
    rfl rfl JsonSource.missing

/-- C10: for a metadata source that exists and parses but whose
`RepetitionTime` entry is absent (`metadata.get` yields `None`), the
resolver raises the missing-fields `ValueError` (the spec's
`IncompleteMetadataError`), the missing-fields list in the error names
`RepetitionTime`, and the path is NOT added to the processed set. -/
theorem extract_metadata_missing_repetition_time
    (path : String) (m : List (String × PyVal)) (processed : List String)
    (hnp : path ∉ processed)
    (habs : pyGet m "RepetitionTime" = PyVal.none) :
    ∃ missing : List String,
      extract_metadata_from_json path (JsonSource.parsed m) processed =
        (Except.error (PyErr.valueErrorMissingFields path missing), processed) ∧
      "RepetitionTime" ∈ missing := by
  unfold extract_metadata_from_json
  rw [if_neg hnp]
  have hall :
      ([("TaskName", pyGet m "TaskName"),
        ("RepetitionTime", pyGet m "RepetitionTime"),
        ("NumVolumes", pyGet m "NumVolumes")].all (fun p => p.2.truthy)) = false := by
    simp [habs, PyVal.truthy]
  simp only [hall, Bool.false_eq_true, if_false]
  refine ⟨_, rfl, ?_⟩
  simp only [List.mem_map]
  refine ⟨("RepetitionTime", pyGet m "RepetitionTime"), ?_, rfl⟩
  simp [habs, PyVal.isNone]

/-- C10 (witness). -/
theorem extract_metadata_missing_repetition_time_witness :
    ∃ missing : List String,
      extract_metadata_from_json "f.json"
          (JsonSource.parsed [("TaskName", PyVal.str "rest"),
            ("NumVolumes", PyVal.int 160)]) [] =
        (Except.error (PyErr.valueErrorMissingFields "f.json" missing), []) ∧
      "RepetitionTime" ∈ missing :=
  extract_metadata_missing_repetition_time "f.json"
    [("TaskName", PyVal.str "rest"), ("NumVolumes", PyVal.int 160)] []
    (by simp) rfl

/-- Every run emitted by the scanning loop is built by `mkRun` from some
accumulated candidate. -/
theorem scanRuns_mem_shape (data : List (List ℚ)) (num spv : Nat) :
    ∀ (ts current : List Nat) (r : Run),
      r ∈ scanRuns data num spv current ts →
      ∃ s : List Nat, r = mkRun data num spv s := by
  intro ts
  induction ts with
  | nil =>
    intro current r hr
    unfold scanRuns trailRun at hr
    split at hr
    · exact ⟨current, (List.mem_singleton.mp hr)⟩
    · simp at hr
  | cons t rest ih =>
    intro current r hr
    cases rest with
    | nil =>
      unfold scanRuns trailRun at hr
      split at hr
      · exact ⟨current, (List.mem_singleton.mp hr)⟩
      · simp at hr
    | cons t' rest' =>
      unfold scanRuns at hr
      split at hr
      all_goals
        simp only [] at hr
        split at hr
        · rcases List.mem_append.mp hr with hl | hrcl
          · split at hl
            · exact ⟨_, List.mem_singleton.mp hl⟩
            · simp at hl
          · exact ih _ r hrcl
        · exact ih _ r hr

set_option maxRecDepth 4000 in
/-- C5 (counterexample): with a 250-sample recording, onsets
`[0,100,200,300]` followed by a trailing onset, `num_volumes = 4` and
`samples_per_volume = 100`, the computed `end_index = 400` exceeds the
recording length `250`, yet the scanning loop emits the run anyway: the
`numpy` slice silently clamps the segment to the 250 available rows and
no error of any kind is raised (the loop's codomain has no error case,
and no `RunBoundsError` exists anywhere in the source). -/
theorem find_runs_core_truncates_cex :
    findRunsCore exData250 [0, 100, 200, 300, 9999] 4 100 =
      [{ data := pySlice exData250 0 400, start_index := 0 }] ∧
    exData250.length = 250 ∧
    (pySlice exData250 0 400).length = 250 ∧
    250 < 4 * 100 := by
  refine ⟨rfl, by simp [exData250], ?_, by norm_num⟩
  simp [pySlice, exData250]

/-- C5 (amended): when an accepted candidate's
`end_index = start_index + num_volumes * samples_per_volume` exceeds the
recording length, the emitted segment is silently truncated to the
available rows rather than rejected: every run the scanning loop emits
carries exactly the clamped slice
`data[start_index : start_index + num * spv]`, and the loop is a total
function with no failure outcome. -/
theorem find_runs_core_segment_clamped (data : List (List ℚ)) (ts : List Nat)
    (num spv : Nat) (r : Run) (hr : r ∈ findRunsCore data ts num spv) :
    r.data = pySlice data r.start_index (r.start_index + num * spv) := by
  obtain ⟨s, rfl⟩ := scanRuns_mem_shape data num spv ts [] r hr
  rfl

/-- C5 (witness for the amended theorem). -/
theorem find_runs_core_segment_clamped_witness :
    ({ data := pySlice exData250 0 (0 + 4 * 100), start_index := 0 } : Run).data =
      pySlice exData250 0 (0 + 4 * 100) :=
  find_runs_core_segment_clamped exData250 [0, 100, 200, 300, 9999] 4 100
    { data := pySlice exData250 0 (0 + 4 * 100), start_index := 0 }
    (List.mem_singleton_self _)

/-- C7: a candidate that has accumulated only 3 of the expected
`num_volumes = 4` onsets when the gap to the next onset exceeds
`samples_per_volume` is discarded without any error and without emitting
a partial segment: scanning the onsets `a :: b :: c :: d :: rest` (with
`a,b,c` within-run gaps at most `spv` and `d - c > spv`) produces
exactly the runs obtained by scanning the remaining onsets
`d :: rest` afresh. -/
theorem find_runs_core_discards_partial (data : List (List ℚ))
    (a b c d : Nat) (rest : List Nat) (spv : Nat)
    (h1 : ((b : Int) - (a : Int)) ≤ (spv : Int))
    (h2 : ((c : Int) - (b : Int)) ≤ (spv : Int))
    (h3 : ((d : Int) - (c : Int)) > (spv : Int)) :
    findRunsCore data (a :: b :: c :: d :: rest) 4 spv =
      findRunsCore data (d :: rest) 4 spv := by
  have hn1 : ¬(((b : Int) - (a : Int)) > (spv : Int)) := not_lt.mpr h1
  have hn2 : ¬(((c : Int) - (b : Int)) > (spv : Int)) := not_lt.mpr h2
  unfold findRunsCore
  have e1 : scanRuns data 4 spv [] (a :: b :: c :: d :: rest) =
      scanRuns data 4 spv [a] (b :: c :: d :: rest) := by
    rw [scanRuns]
    simp [hn1]
  have e2 : scanRuns data 4 spv [a] (b :: c :: d :: rest) =
      scanRuns data 4 spv [a, b] (c :: d :: rest) := by
    rw [scanRuns]
    simp [hn2]
  have e3 : scanRuns data 4 spv [a, b] (c :: d :: rest) =
      scanRuns data 4 spv [] (d :: rest) := by
    rw [scanRuns]
    simp [h3]
  rw [e1, e2, e3]

/-- C7 (witness). -/
theorem find_runs_core_discards_partial_witness :
    findRunsCore exData450 [0, 100, 200, 2000, 2100, 2200, 2300, 2400] 4 100 =
      findRunsCore exData450 [2000, 2100, 2200, 2300, 2400] 4 100 :=
  find_runs_core_discards_partial exData450 0 100 200 2000
    [2100, 2200, 2300, 2400] 100 (by norm_num) (by norm_num) (by norm_num)
